import Mathlib

/-!
# Verification of the Ajax SSE event-processing core

A shallow embedding of `custom_components/ajax/sse_manager.py` (class
`SSEManager`): event normalization, deduplication, device resolution,
per-category state mutation, and the per-hub state-protection check.

Python dictionaries are modelled as insertion-ordered association lists
(`List (String × _)`); Python values flowing out of JSON payloads are
modelled by the inductive `JValue` (with `null` standing for both JSON
null and Python `None`); Python exceptions are modelled explicitly
(`PyErr`), and the top-level `try/except` of `_handle_event` is the
totalization `handleEvent` of the fallible body `handleEventBody`.
Timestamps (`time.time()`) are modelled as integers.

The lookup tables imported from `sqs_manager.py` and the event-code
parser from `event_codes.py` are not part of the sources under
verification; they are abstracted as parameters (`Tables`, `pec`), since
no property below depends on their contents.
-/

namespace AjaxSSE

/-- Python/JSON values as they occur in raw SSE payloads. -/
inductive JValue where
  | null : JValue
  | bool : Bool → JValue
  | num : Int → JValue
  | str : String → JValue
  | arr : List JValue → JValue
  | obj : List (String × JValue) → JValue
  deriving Repr

/-- The Python exceptions that the modelled code can raise. -/
inductive PyErr where
  | attrError : PyErr
  | typeError : PyErr
  | keyError : PyErr
  deriving Repr, DecidableEq

/-- First value stored under key `k` (Python `d[k]` / first probe of `d.get`). -/
def dictGet {α : Type} (l : List (String × α)) (k : String) : Option α :=
  (l.find? (fun e => e.1 == k)).map (fun e => e.2)

/-- Python `d.get(k, default)`. -/
def dictGetD {α : Type} (l : List (String × α)) (k : String) (d : α) : α :=
  (dictGet l k).getD d

/-- Python `d.get(k)` on a JSON object: missing keys give `None`. -/
def jGetN (l : List (String × JValue)) (k : String) : JValue :=
  dictGetD l k .null

/-- Python `d[k] = v`: replace the value in place if the key exists, else append. -/
def dictSet {α : Type} : List (String × α) → String → α → List (String × α)
  | [], k, v => [(k, v)]
  | (k', v') :: t, k, v =>
    if k' == k then (k, v) :: t else (k', v') :: dictSet t k v

/-- Python truthiness of a `JValue` (with `null` playing `None`). -/
def jTruthy : JValue → Bool
  | .null => false
  | .bool b => b
  | .num n => n != 0
  | .str s => s != ""
  | .arr l => !l.isEmpty
  | .obj l => !l.isEmpty

/-- Python `a or b` restricted to its use sites (value selection). -/
def pyOr (a b : JValue) : JValue :=
  if jTruthy a then a else b

/-- Python `v == s` between an arbitrary value and a string: true exactly
when `v` is the equal string (mismatched types compare unequal without
raising). -/
def jEqStr (v : JValue) (s : String) : Bool :=
  match v with
  | .str t => t == s
  | _ => false

/-- Python `str.lower()` (over the underlying character list, so that it
evaluates by kernel reduction). -/
def pyLower (s : String) : String :=
  ⟨s.data.map Char.toLower⟩

/-- Occurrence of `needle` in `hay` as character lists: a match at the
head or anywhere in the tail. -/
def listContains (needle : List Char) : List Char → Bool
  | [] => needle.isEmpty
  | c :: t => needle.isPrefixOf (c :: t) || listContains needle t

/-- Python `needle in haystack` on strings. -/
def pyStrIn (needle hay : String) : Bool :=
  listContains needle.data hay.data

/-- Python `s.endswith(suffix)` (over the underlying character lists, so
that it evaluates by kernel reduction). -/
def strEndsWith (s suffix : String) : Bool :=
  suffix.data.reverse.isPrefixOf s.data.reverse

/-- Python `str(v)` as used to build the dedup key via an f-string.
Container reprs are abstracted to fixed placeholders; no verified
property depends on the rendering of containers. -/
def jToPyStr : JValue → String
  | .str s => s
  | .num n => toString n
  | .bool true => "True"
  | .bool false => "False"
  | .null => "None"
  | .obj _ => "<dict>"
  | .arr _ => "<list>"

/-- A security state, standing for one member of the Python alarm-state
enum (`space.security_state`); `value` is the enum member's `.value`. -/
structure SecurityState where
  value : String
  deriving Repr, DecidableEq

/-- One Ajax device, as mutated by the category handlers. -/
structure Device where
  id : String
  name : String
  online : Bool
  attributes : List (String × JValue)
  deriving Repr

/-- One space (installation tied to a hub), owning its devices as a
dict from device id to device. -/
structure Space where
  hubId : String
  name : String
  securityState : SecurityState
  devices : List (String × Device)
  deriving Repr

/-- One audit notification handed to
`coordinator._create_sqs_notification`. -/
structure SqsNotification where
  action : String
  sourceName : JValue
  spaceName : String
  deriving Repr

/-- One `ajax_scenario_triggered` event fired on the HA bus. -/
structure ScenarioFire where
  scenarioName : JValue
  initiatorType : JValue
  targetName : JValue
  eventTag : String
  spaceName : String
  deriving Repr

/-- Result of `parse_event_code` (from `event_codes.py`, abstracted):
the fields of the returned dict that `_handle_event` reads. -/
structure EventCodeInfo where
  typeVal : Option String
  transitionVal : Option String
  deriving Repr, DecidableEq

/-- The static lookup tables imported from `sqs_manager.py`, abstracted:
each maps an event tag to its category payload. -/
structure Tables where
  eventTagToState : List (String × SecurityState)
  doorEvents : List (String × (String × Bool))
  motionEvents : List (String × (String × Bool))
  smokeEvents : List (String × (String × Bool))
  floodEvents : List (String × (String × Bool))
  glassEvents : List (String × (String × Bool))
  tamperEvents : List (String × (String × Bool))
  deviceStatusEvents : List (String × (String × Bool))
  relayEvents : List (String × (String × Bool))
  scenarioEvents : List String
  deriving Repr, DecidableEq

/-- The mutable state reached from the `SSEManager`: its own fields
(`_last_state_update`, `_recent_events`, `_dedup_window`) plus the
coordinator-owned model (`account.spaces`) and the observable
side effects (notification tasks, scenario bus fires, scheduled
refreshes, `async_set_updated_data` calls). -/
structure HState where
  lastStateUpdate : List (String × Int)
  recentEvents : List (String × Int)
  dedupWindow : Int
  spaces : List (String × Space)
  notifications : List SqsNotification
  scenarioFires : List ScenarioFire
  refreshRequests : Nat
  updatedDataCount : Nat
  deriving Repr

/-- `SSEManager.is_state_protected`: a hub whose state was updated via
SSE within the last 5 seconds is protected from REST overwrites.  A hub
absent from `_last_state_update` defaults to timestamp `0`. -/
def isStateProtected (lastStateUpdate : List (String × Int)) (hubId : String)
    (now : Int) : Bool :=
  now - dictGetD lastStateUpdate hubId 0 < 5

/-! ## Device resolution (`SSEManager._find_device`) -/

/-- `source_id in space.devices` followed by `space.devices[source_id]`:
membership hashes the key, so a (nonempty, hence truthy) dict or list
raises `TypeError`; other non-string values hash fine but never equal a
string key. -/
def exactIdStage (devices : List (String × Device)) (sourceId : JValue) :
    Except PyErr (Option (String × Device)) :=
  match sourceId with
  | .str s => .ok ((dictGet devices s).map (fun d => (s, d)))
  | .obj _ => .error .typeError
  | .arr _ => .error .typeError
  | _ => .ok none

/-- `len(source_id) == 8`: `len` works on strings, lists and dicts and
raises `TypeError` on numbers, booleans and `None`. -/
def pyLenEq8 (sourceId : JValue) : Except PyErr Bool :=
  match sourceId with
  | .str s => .ok (s.length == 8)
  | .arr l => .ok (l.length == 8)
  | .obj l => .ok (l.length == 8)
  | _ => .error .typeError

/-- The wired-input suffix loop: the first device whose own id has
exactly 16 characters and ends with `source_id`.  `str.endswith` raises
`TypeError` when its argument is not a string, but only once it is
actually evaluated (i.e. on the first 16-character candidate id). -/
def suffixScan (sourceId : JValue) :
    List (String × Device) → Except PyErr (Option (String × Device))
  | [] => .ok none
  | e :: t =>
    if e.2.id.length == 16 then
      match sourceId with
      | .str s =>
        if strEndsWith e.2.id s then .ok (some e) else suffixScan sourceId t
      | _ => .error .typeError
    else suffixScan sourceId t

/-- The name-match loop: the first device whose `name` equals
`source_name` (Python `==`, so a non-string `source_name` simply never
matches). -/
def nameScan (devices : List (String × Device)) (sourceName : JValue) :
    Option (String × Device) :=
  devices.find? (fun e => jEqStr sourceName e.2.name)

/-- `SSEManager._find_device`, returning the matched dict entry
(key and device) so that the caller's in-place mutation of the aliased
device object can be modelled as a keyed write-back. -/
def findDeviceEntry (devices : List (String × Device))
    (sourceName sourceId : JValue) : Except PyErr (Option (String × Device)) :=
  let idPart : Except PyErr (Option (String × Device)) :=
    if jTruthy sourceId then
      match exactIdStage devices sourceId with
      | .error e => .error e
      | .ok (some e) => .ok (some e)
      | .ok none =>
        match pyLenEq8 sourceId with
        | .error e => .error e
        | .ok true => suffixScan sourceId devices
        | .ok false => .ok none
    else .ok none
  match idPart with
  | .error e => .error e
  | .ok (some e) => .ok (some e)
  | .ok none =>
    if jTruthy sourceName then .ok (nameScan devices sourceName) else .ok none

/-- `_find_device` projected to the device it returns. -/
def findDeviceRes (devices : List (String × Device))
    (sourceName sourceId : JValue) : Except PyErr (Option Device) :=
  (findDeviceEntry devices sourceName sourceId).map (Option.map Prod.snd)

/-! ## Category handlers

Each handler takes the resolved space together with the key it is stored
under in `account.spaces` (Python mutates the aliased objects in place;
the model writes the updated space back under that key), and returns the
new state plus `some err` when the Python body would raise. -/

/-- `SSEManager._handle_security_event`. -/
def handleSecurityEvent (T : Tables) (pendingHaAction : String → Bool)
    (now : Int) (spaceKey : String) (space : Space) (eventTag : String)
    (sourceName : JValue) (st : HState) : HState × Option PyErr :=
  match dictGet T.eventTagToState eventTag with
  | none => (st, none)
  | some newState =>
    let oldState := space.securityState
    let stateChanged := oldState != newState
    let sourceName' :=
      if pendingHaAction space.hubId then JValue.str "Home Assistant"
      else sourceName
    let isGroupEvent := eventTag == "grouparm" || eventTag == "groupdisarm"
    let st1 :=
      if isGroupEvent then
        { st with refreshRequests := st.refreshRequests + 1 }
      else st
    let st2 :=
      if stateChanged && !isGroupEvent then
        { st1 with
          spaces := dictSet st1.spaces spaceKey
            { space with securityState := newState },
          lastStateUpdate := dictSet st1.lastStateUpdate space.hubId now }
      else st1
    ({ st2 with
       notifications := st2.notifications ++
         [⟨newState.value, sourceName', space.name⟩] }, none)

/-- `SSEManager._handle_door_event`. -/
def handleDoorEvent (T : Tables) (nowIso : String) (spaceKey : String)
    (space : Space) (eventTag : String) (sourceName sourceId : JValue)
    (transition : String) (st : HState) : HState × Option PyErr :=
  match dictGet T.doorEvents eventTag with
  | none => (st, some .keyError)
  | some (_actionKey, defTriggered) =>
    let isTriggered :=
      if transition == "RECOVERED" then false
      else if transition == "TRIGGERED" then true
      else defTriggered
    match findDeviceEntry space.devices sourceName sourceId with
    | .error e => (st, some e)
    | .ok none => (st, none)
    | .ok (some (devKey, dev)) =>
      let dev' := { dev with
        attributes :=
          dictSet (dictSet dev.attributes "door_opened" (.bool isTriggered))
            "door_opened_at" (.str nowIso) }
      ({ st with
         spaces := dictSet st.spaces spaceKey
           { space with devices := dictSet space.devices devKey dev' } },
       none)

/-- `SSEManager._handle_motion_event`. -/
def handleMotionEvent (T : Tables) (nowIso : String) (spaceKey : String)
    (space : Space) (eventTag : String) (sourceName sourceId : JValue)
    (st : HState) : HState × Option PyErr :=
  match dictGet T.motionEvents eventTag with
  | none => (st, some .keyError)
  | some (_actionKey, isTriggered) =>
    match findDeviceEntry space.devices sourceName sourceId with
    | .error e => (st, some e)
    | .ok none => (st, none)
    | .ok (some (devKey, dev)) =>
      let dev' := { dev with
        attributes :=
          dictSet (dictSet dev.attributes "motion_detected" (.bool isTriggered))
            "motion_detected_at" (.str nowIso) }
      ({ st with
         spaces := dictSet st.spaces spaceKey
           { space with devices := dictSet space.devices devKey dev' } },
       none)

/-- `SSEManager._handle_smoke_event`. -/
def handleSmokeEvent (T : Tables) (spaceKey : String) (space : Space)
    (eventTag : String) (sourceName sourceId : JValue) (st : HState) :
    HState × Option PyErr :=
  match dictGet T.smokeEvents eventTag with
  | none => (st, some .keyError)
  | some (actionKey, isTriggered) =>
    match findDeviceEntry space.devices sourceName sourceId with
    | .error e => (st, some e)
    | .ok none => (st, none)
    | .ok (some (devKey, dev)) =>
      let attrs :=
        if pyStrIn "smoke" actionKey then
          dictSet dev.attributes "smoke_detected" (.bool isTriggered)
        else if pyStrIn "temp" actionKey then
          dictSet dev.attributes "temperature_alert" (.bool isTriggered)
        else if pyStrIn "co" actionKey then
          dictSet dev.attributes "co_detected" (.bool isTriggered)
        else dev.attributes
      ({ st with
         spaces := dictSet st.spaces spaceKey
           { space with
             devices := dictSet space.devices devKey
               { dev with attributes := attrs } } },
       none)

/-- `SSEManager._handle_flood_event`. -/
def handleFloodEvent (T : Tables) (spaceKey : String) (space : Space)
    (eventTag : String) (sourceName sourceId : JValue) (st : HState) :
    HState × Option PyErr :=
  match dictGet T.floodEvents eventTag with
  | none => (st, some .keyError)
  | some (_actionKey, isTriggered) =>
    match findDeviceEntry space.devices sourceName sourceId with
    | .error e => (st, some e)
    | .ok none => (st, none)
    | .ok (some (devKey, dev)) =>
      let dev' := { dev with
        attributes := dictSet dev.attributes "leak_detected" (.bool isTriggered) }
      ({ st with
         spaces := dictSet st.spaces spaceKey
           { space with devices := dictSet space.devices devKey dev' } },
       none)

/-- `SSEManager._handle_glass_event`. -/
def handleGlassEvent (T : Tables) (spaceKey : String) (space : Space)
    (eventTag : String) (sourceName sourceId : JValue) (st : HState) :
    HState × Option PyErr :=
  match dictGet T.glassEvents eventTag with
  | none => (st, some .keyError)
  | some (_actionKey, isTriggered) =>
    match findDeviceEntry space.devices sourceName sourceId with
    | .error e => (st, some e)
    | .ok none => (st, none)
    | .ok (some (devKey, dev)) =>
      let dev' := { dev with
        attributes :=
          dictSet dev.attributes "glass_break_detected" (.bool isTriggered) }
      ({ st with
         spaces := dictSet st.spaces spaceKey
           { space with devices := dictSet space.devices devKey dev' } },
       none)

/-- `SSEManager._handle_tamper_event`. -/
def handleTamperEvent (T : Tables) (spaceKey : String) (space : Space)
    (eventTag : String) (sourceName sourceId : JValue) (transition : String)
    (st : HState) : HState × Option PyErr :=
  match dictGet T.tamperEvents eventTag with
  | none => (st, some .keyError)
  | some (_actionKey, defTriggered) =>
    let isTriggered :=
      if transition == "RECOVERED" then false
      else if transition == "TRIGGERED" then true
      else defTriggered
    match findDeviceEntry space.devices sourceName sourceId with
    | .error e => (st, some e)
    | .ok none => (st, none)
    | .ok (some (devKey, dev)) =>
      let dev' := { dev with
        attributes := dictSet dev.attributes "tampered" (.bool isTriggered) }
      ({ st with
         spaces := dictSet st.spaces spaceKey
           { space with devices := dictSet space.devices devKey dev' } },
       none)

/-- `SSEManager._handle_device_status_event`. -/
def handleDeviceStatusEvent (T : Tables) (spaceKey : String) (space : Space)
    (eventTag : String) (sourceName sourceId : JValue) (st : HState) :
    HState × Option PyErr :=
  match dictGet T.deviceStatusEvents eventTag with
  | none => (st, some .keyError)
  | some (actionKey, isProblem) =>
    match findDeviceEntry space.devices sourceName sourceId with
    | .error e => (st, some e)
    | .ok none => (st, none)
    | .ok (some (devKey, dev)) =>
      let dev' :=
        if pyStrIn "online" actionKey || pyStrIn "offline" actionKey then
          { dev with online := !isProblem }
        else if pyStrIn "battery" actionKey then
          { dev with
            attributes := dictSet dev.attributes "low_battery" (.bool isProblem) }
        else if pyStrIn "power" actionKey then
          { dev with
            attributes :=
              dictSet dev.attributes "external_power_lost" (.bool isProblem) }
        else dev
      ({ st with
         spaces := dictSet st.spaces spaceKey
           { space with devices := dictSet space.devices devKey dev' } },
       none)

/-- `SSEManager._handle_relay_event`. -/
def handleRelayEvent (T : Tables) (spaceKey : String) (space : Space)
    (eventTag : String) (sourceName sourceId : JValue) (st : HState) :
    HState × Option PyErr :=
  match dictGet T.relayEvents eventTag with
  | none => (st, some .keyError)
  | some (_actionKey, isOn) =>
    match findDeviceEntry space.devices sourceName sourceId with
    | .error e => (st, some e)
    | .ok none => (st, none)
    | .ok (some (devKey, dev)) =>
      let dev' := { dev with
        attributes := dictSet dev.attributes "is_on" (.bool isOn) }
      ({ st with
         spaces := dictSet st.spaces spaceKey
           { space with devices := dictSet space.devices devKey dev' } },
       none)

/-- The `additionalDataV2` loop of `_handle_scenario_event`: the first
entry whose `additionalDataV2Type` is `"INITIATOR_INFO"` yields
`(objectName, objectType)`; a non-dict entry raises when `data.get` is
called on it. -/
def scanInitiator : List JValue → Except PyErr (Option (JValue × JValue))
  | [] => .ok none
  | i :: t =>
    match i with
    | .obj dfields =>
      if jEqStr (jGetN dfields "additionalDataV2Type") "INITIATOR_INFO" then
        .ok (some (jGetN dfields "objectName", jGetN dfields "objectType"))
      else scanInitiator t
    | _ => .error .attrError

/-- `SSEManager._handle_scenario_event`.  Iterating a non-list
`additionalDataV2` raises `TypeError` for non-iterables; iterating a
nonempty string or dict yields characters / keys on which `data.get`
raises `AttributeError`; empty iterables leave `initiator_name` unset. -/
def handleScenarioEvent (space : Space)
    (eventFields : List (String × JValue)) (eventTag : String) (st : HState) :
    HState × Option PyErr :=
  let additional := dictGetD eventFields "additionalDataV2" (.arr [])
  let sourceName := dictGetD eventFields "sourceObjectName" (.str "")
  match additional with
  | .arr items =>
    match scanInitiator items with
    | .error e => (st, some e)
    | .ok none => (st, none)
    | .ok (some (initiatorName, initiatorType)) =>
      if jTruthy initiatorName then
        ({ st with
           scenarioFires := st.scenarioFires ++
             [⟨initiatorName, initiatorType, sourceName, eventTag,
               space.name⟩] }, none)
      else (st, none)
  | .str s => if s == "" then (st, none) else (st, some .attrError)
  | .obj l => if l.isEmpty then (st, none) else (st, some .attrError)
  | _ => (st, some .typeError)

/-! ## Event normalization (`_handle_event`, lines 135–198) -/

/-- A canonical event as extracted by `_handle_event` before dispatch. -/
structure NormEvent where
  eventTag : String
  hubId : JValue
  eventCode : JValue
  sourceName : JValue
  sourceId : JValue
  sourceType : JValue
  eventType : String
  transition : String
  eventFields : List (String × JValue)
  deriving Repr

/-- Normalization either drops the payload (missing/empty `eventTag` or
falsy `hubId`) or yields a canonical event. -/
inductive NormRes where
  | malformed : NormRes
  | go : NormEvent → NormRes
  deriving Repr

/-- `event = event_data.get("event", event_data)`: a non-dict payload
raises `AttributeError` at the `.get` call. -/
def resolveEventObj (eventData : JValue) : Except PyErr JValue :=
  match eventData with
  | .obj fields => .ok (dictGetD fields "event" eventData)
  | _ => .error .attrError

/-- `source_name` extraction (lines 154–162): `device["name"]` if truthy,
else `source["name"]`, else `sourceObjectName or sourceName or ""`. -/
def extractSourceName (eventFields : List (String × JValue))
    (source device : JValue) : JValue :=
  let primary :=
    match device with
    | .obj df =>
      if jTruthy (jGetN df "name") then jGetN df "name"
      else
        match source with
        | .obj sf => jGetN sf "name"
        | _ => .null
    | _ =>
      match source with
      | .obj sf => jGetN sf "name"
      | _ => .null
  if jTruthy primary then primary
  else pyOr (jGetN eventFields "sourceObjectName")
    (dictGetD eventFields "sourceName" (.str ""))

/-- `source_id` extraction (lines 164–169): `device["id"]` if truthy,
else `sourceObjectId or deviceId or ""`. -/
def extractSourceId (eventFields : List (String × JValue)) (device : JValue) :
    JValue :=
  match device with
  | .obj df =>
    if jTruthy (jGetN df "id") then jGetN df "id"
    else pyOr (jGetN eventFields "sourceObjectId")
      (dictGetD eventFields "deviceId" (.str ""))
  | _ =>
    pyOr (jGetN eventFields "sourceObjectId")
      (dictGetD eventFields "deviceId" (.str ""))

/-- `source_type` extraction (lines 171–180). -/
def extractSourceType (eventFields : List (String × JValue))
    (source device : JValue) : JValue :=
  let primary :=
    match device with
    | .obj df =>
      if jTruthy (jGetN df "type") then jGetN df "type"
      else
        match source with
        | .obj sf => jGetN sf "type"
        | _ => .null
    | _ =>
      match source with
      | .obj sf => jGetN sf "type"
      | _ => .null
  if jTruthy primary then primary
  else pyOr (jGetN eventFields "sourceObjectType")
    (dictGetD eventFields "sourceType" (.str ""))

/-- Lines 137–187 of `_handle_event`: unwrap the payload, require a
nonempty lowercased `eventTag` and a truthy `hubId`, extract the source
fields and parse the event code (`pec` abstracts
`event_codes.parse_event_code`, which lives outside the verified
sources).  Calling `.lower()` on a non-string `eventTag` raises
`AttributeError`, as does `.get` on a non-dict event. -/
def normalizeEvent (pec : JValue → Except PyErr (Option EventCodeInfo))
    (eventData : JValue) : Except PyErr NormRes :=
  match resolveEventObj eventData with
  | .error e => .error e
  | .ok event =>
    match event with
    | .obj ef =>
      match dictGetD ef "eventTag" (.str "") with
      | .str rawTag =>
        let eventTag := pyLower rawTag
        let hubId := jGetN ef "hubId"
        if eventTag == "" || !jTruthy hubId then .ok .malformed
        else
          let eventCode := dictGetD ef "eventCode" (.str "")
          let source := dictGetD ef "source" (.obj [])
          let device := dictGetD ef "device" (.obj [])
          let sourceName := extractSourceName ef source device
          let sourceId := extractSourceId ef device
          let sourceType := extractSourceType ef source device
          match pec eventCode with
          | .error e => .error e
          | .ok codeInfo =>
            let eventType :=
              match codeInfo with
              | some ci => ci.typeVal.getD "UNKNOWN"
              | none => "UNKNOWN"
            let transition :=
              match codeInfo with
              | some ci => ci.transitionVal.getD "TRIGGERED"
              | none => "TRIGGERED"
            .ok (.go ⟨eventTag, hubId, eventCode, sourceName, sourceId,
              sourceType, eventType, transition, ef⟩)
      | _ => .error .attrError
    | _ => .error .attrError

/-- `event_key = f"{source_id}:{event_tag}:{transition}"`. -/
def eventKey (ne : NormEvent) : String :=
  jToPyStr ne.sourceId ++ ":" ++ ne.eventTag ++ ":" ++ ne.transition

/-! ## Dispatch and the top-level handler -/

/-- The ten event categories of the dispatch chain, plus the fall-through
for unknown tags. -/
inductive Category where
  | security | door | motion | smoke | flood | glass | tamper
  | deviceStatus | relay | scenario | unhandled
  deriving Repr, DecidableEq

/-- What one call of the event handler did. -/
inductive Outcome where
  | malformed : Outcome
  | suppressed : Outcome
  | unknownHub : Outcome
  | processed : Category → Outcome
  | raised : PyErr → Outcome
  | errorLogged : PyErr → Outcome
  deriving Repr, DecidableEq

/-- After a handler returns without raising, `_handle_event` reaches
line 266 and calls `coordinator.async_set_updated_data`; a raise skips
it and propagates. -/
def finishDispatch (cat : Category) : HState × Option PyErr → HState × Outcome
  | (st, some e) => (st, .raised e)
  | (st, none) =>
    ({ st with updatedDataCount := st.updatedDataCount + 1 }, .processed cat)

/-- The `if/elif` category chain of `_handle_event` (lines 230–263),
keyed by table membership, followed by the model-changed notification. -/
def dispatchEvent (T : Tables) (pendingHaAction : String → Bool) (now : Int)
    (nowIso : String) (spaceKey : String) (space : Space) (ne : NormEvent)
    (st : HState) : HState × Outcome :=
  if (dictGet T.eventTagToState ne.eventTag).isSome then
    finishDispatch .security
      (handleSecurityEvent T pendingHaAction now spaceKey space ne.eventTag
        ne.sourceName st)
  else if (dictGet T.doorEvents ne.eventTag).isSome then
    finishDispatch .door
      (handleDoorEvent T nowIso spaceKey space ne.eventTag ne.sourceName
        ne.sourceId ne.transition st)
  else if (dictGet T.motionEvents ne.eventTag).isSome then
    finishDispatch .motion
      (handleMotionEvent T nowIso spaceKey space ne.eventTag ne.sourceName
        ne.sourceId st)
  else if (dictGet T.smokeEvents ne.eventTag).isSome then
    finishDispatch .smoke
      (handleSmokeEvent T spaceKey space ne.eventTag ne.sourceName
        ne.sourceId st)
  else if (dictGet T.floodEvents ne.eventTag).isSome then
    finishDispatch .flood
      (handleFloodEvent T spaceKey space ne.eventTag ne.sourceName
        ne.sourceId st)
  else if (dictGet T.glassEvents ne.eventTag).isSome then
    finishDispatch .glass
      (handleGlassEvent T spaceKey space ne.eventTag ne.sourceName
        ne.sourceId st)
  else if (dictGet T.tamperEvents ne.eventTag).isSome then
    finishDispatch .tamper
      (handleTamperEvent T spaceKey space ne.eventTag ne.sourceName
        ne.sourceId ne.transition st)
  else if (dictGet T.deviceStatusEvents ne.eventTag).isSome then
    finishDispatch .deviceStatus
      (handleDeviceStatusEvent T spaceKey space ne.eventTag ne.sourceName
        ne.sourceId st)
  else if (dictGet T.relayEvents ne.eventTag).isSome then
    finishDispatch .relay
      (handleRelayEvent T spaceKey space ne.eventTag ne.sourceName
        ne.sourceId st)
  else if T.scenarioEvents.contains ne.eventTag then
    finishDispatch .scenario
      (handleScenarioEvent space ne.eventFields ne.eventTag st)
  else
    ({ st with updatedDataCount := st.updatedDataCount + 1 },
     .processed .unhandled)

/-- Lines 211–216: record the event key in `_recent_events` and prune
entries older than 60 seconds. -/
def postDedupState (st : HState) (key : String) (now : Int) : HState :=
  { st with
    recentEvents :=
      (dictSet st.recentEvents key now).filter (fun kv => now - kv.2 < 60) }

/-- The body of `SSEManager._handle_event` (everything inside the `try`):
normalization, deduplication with opportunistic pruning, hub lookup, and
category dispatch.  The returned state reflects every mutation performed
before an early exit or a raise. -/
def handleEventBody (T : Tables)
    (pec : JValue → Except PyErr (Option EventCodeInfo))
    (pendingHaAction : String → Bool) (now : Int) (nowIso : String)
    (st : HState) (eventData : JValue) : HState × Outcome :=
  match normalizeEvent pec eventData with
  | .error e => (st, .raised e)
  | .ok .malformed => (st, .malformed)
  | .ok (.go ne) =>
    let key := eventKey ne
    let lastTime := dictGetD st.recentEvents key 0
    if now - lastTime < st.dedupWindow then (st, .suppressed)
    else
      let st1 := postDedupState st key now
      match st1.spaces.find? (fun e => jEqStr ne.hubId e.2.hubId) with
      | none => (st1, .unknownHub)
      | some (spaceKey, space) =>
        dispatchEvent T pendingHaAction now nowIso spaceKey space ne st1

/-- The `except Exception` clause: a raise out of the body is caught and
logged; every other outcome passes through. -/
def tameOutcome : Outcome → Outcome
  | .raised e => .errorLogged e
  | o => o

/-- `SSEManager._handle_event`: the body wrapped in the top-level
`try/except Exception` that logs and swallows any raise (the state at
the raise point is kept, since Python's mutations are in place). -/
def handleEvent (T : Tables)
    (pec : JValue → Except PyErr (Option EventCodeInfo))
    (pendingHaAction : String → Bool) (now : Int) (nowIso : String)
    (st : HState) (eventData : JValue) : HState × Outcome :=
  let r := handleEventBody T pec pendingHaAction now nowIso st eventData
  (r.1, tameOutcome r.2)

/-- A stream of deliveries `(timestamp, payload)` processed in order by
the callback. -/
def processEvents (T : Tables)
    (pec : JValue → Except PyErr (Option EventCodeInfo))
    (pendingHaAction : String → Bool) (nowIso : String) (st : HState) :
    List (Int × JValue) → HState × List Outcome
  | [] => (st, [])
  | (t, p) :: rest =>
    let r := handleEvent T pec pendingHaAction t nowIso st p
    let rr := processEvents T pec pendingHaAction nowIso r.1 rest
    (rr.1, r.2 :: rr.2)

/-! ## Association-list lemmas -/

theorem find?_congr {α : Type} {p q : α → Bool} (entries : List α)
    (hpq : ∀ x ∈ entries, p x = q x) :
    entries.find? p = entries.find? q := by
  induction entries with
  | nil => rfl
  | cons y ys ih =>
    have hy := hpq y (List.mem_cons_self y ys)
    by_cases hp : p y = true
    · rw [List.find?_cons_of_pos ys hp, List.find?_cons_of_pos ys (hy ▸ hp)]
    · rw [List.find?_cons_of_neg ys hp, List.find?_cons_of_neg ys (hy ▸ hp),
        ih (fun z hz => hpq z (List.mem_cons_of_mem y hz))]

theorem dictGet_dictSet_self {α : Type} (l : List (String × α)) (k : String)
    (v : α) : dictGet (dictSet l k v) k = some v := by
  induction l with
  | nil => simp [dictGet, dictSet]
  | cons e t ih =>
    by_cases h : e.1 == k
    · simp [dictSet, h, dictGet]
    · simp only [dictSet, h, if_neg]
      simpa [dictGet, List.find?_cons, h] using ih

theorem dictGet_filter_dictSet {α : Type} (l : List (String × α)) (k : String)
    (v : α) (pred : String × α → Bool) (h : pred (k, v) = true) :
    dictGet ((dictSet l k v).filter pred) k = some v := by
  induction l with
  | nil => simp [dictGet, dictSet, List.filter, h]
  | cons e t ih =>
    by_cases he : e.1 == k
    · simp [dictSet, he, List.filter, h, dictGet]
    · simp only [dictSet, he, if_neg]
      by_cases hp : pred e = true
      · simpa [List.filter, hp, dictGet, List.find?_cons, he] using ih
      · simpa [List.filter, hp] using ih

/-! ## Frame lemmas: what the category handlers never touch -/

theorem handleSecurityEvent_frame (T : Tables) (pending : String → Bool)
    (now : Int) (spaceKey : String) (space : Space) (tag : String)
    (sn : JValue) (st : HState) :
    (handleSecurityEvent T pending now spaceKey space tag sn st).1.recentEvents
        = st.recentEvents ∧
    (handleSecurityEvent T pending now spaceKey space tag sn st).1.dedupWindow
        = st.dedupWindow := by
  unfold handleSecurityEvent
  split
  · exact ⟨rfl, rfl⟩
  · dsimp only []
    repeat' split
    all_goals simp

theorem handleDoorEvent_frame (T : Tables) (nowIso spaceKey : String)
    (space : Space) (tag : String) (sn sid : JValue) (trans : String)
    (st : HState) :
    (handleDoorEvent T nowIso spaceKey space tag sn sid trans st).1.recentEvents
        = st.recentEvents ∧
    (handleDoorEvent T nowIso spaceKey space tag sn sid trans st).1.dedupWindow
        = st.dedupWindow ∧
    (handleDoorEvent T nowIso spaceKey space tag sn sid trans st).1.lastStateUpdate
        = st.lastStateUpdate := by
  unfold handleDoorEvent
  repeat' split
  all_goals simp

theorem handleMotionEvent_frame (T : Tables) (nowIso spaceKey : String)
    (space : Space) (tag : String) (sn sid : JValue) (st : HState) :
    (handleMotionEvent T nowIso spaceKey space tag sn sid st).1.recentEvents
        = st.recentEvents ∧
    (handleMotionEvent T nowIso spaceKey space tag sn sid st).1.dedupWindow
        = st.dedupWindow ∧
    (handleMotionEvent T nowIso spaceKey space tag sn sid st).1.lastStateUpdate
        = st.lastStateUpdate := by
  unfold handleMotionEvent
  repeat' split
  all_goals simp

theorem handleSmokeEvent_frame (T : Tables) (spaceKey : String)
    (space : Space) (tag : String) (sn sid : JValue) (st : HState) :
    (handleSmokeEvent T spaceKey space tag sn sid st).1.recentEvents
        = st.recentEvents ∧
    (handleSmokeEvent T spaceKey space tag sn sid st).1.dedupWindow
        = st.dedupWindow ∧
    (handleSmokeEvent T spaceKey space tag sn sid st).1.lastStateUpdate
        = st.lastStateUpdate := by
  unfold handleSmokeEvent
  repeat' split
  all_goals simp

theorem handleFloodEvent_frame (T : Tables) (spaceKey : String)
    (space : Space) (tag : String) (sn sid : JValue) (st : HState) :
    (handleFloodEvent T spaceKey space tag sn sid st).1.recentEvents
        = st.recentEvents ∧
    (handleFloodEvent T spaceKey space tag sn sid st).1.dedupWindow
        = st.dedupWindow ∧
    (handleFloodEvent T spaceKey space tag sn sid st).1.lastStateUpdate
        = st.lastStateUpdate := by
  unfold handleFloodEvent
  repeat' split
  all_goals simp

theorem handleGlassEvent_frame (T : Tables) (spaceKey : String)
    (space : Space) (tag : String) (sn sid : JValue) (st : HState) :
    (handleGlassEvent T spaceKey space tag sn sid st).1.recentEvents
        = st.recentEvents ∧
    (handleGlassEvent T spaceKey space tag sn sid st).1.dedupWindow
        = st.dedupWindow ∧
    (handleGlassEvent T spaceKey space tag sn sid st).1.lastStateUpdate
        = st.lastStateUpdate := by
  unfold handleGlassEvent
  repeat' split
  all_goals simp

theorem handleTamperEvent_frame (T : Tables) (spaceKey : String)
    (space : Space) (tag : String) (sn sid : JValue) (trans : String)
    (st : HState) :
    (handleTamperEvent T spaceKey space tag sn sid trans st).1.recentEvents
        = st.recentEvents ∧
    (handleTamperEvent T spaceKey space tag sn sid trans st).1.dedupWindow
        = st.dedupWindow ∧
    (handleTamperEvent T spaceKey space tag sn sid trans st).1.lastStateUpdate
        = st.lastStateUpdate := by
  unfold handleTamperEvent
  repeat' split
  all_goals simp

theorem handleDeviceStatusEvent_frame (T : Tables) (spaceKey : String)
    (space : Space) (tag : String) (sn sid : JValue) (st : HState) :
    (handleDeviceStatusEvent T spaceKey space tag sn sid st).1.recentEvents
        = st.recentEvents ∧
    (handleDeviceStatusEvent T spaceKey space tag sn sid st).1.dedupWindow
        = st.dedupWindow ∧
    (handleDeviceStatusEvent T spaceKey space tag sn sid st).1.lastStateUpdate
        = st.lastStateUpdate := by
  unfold handleDeviceStatusEvent
  repeat' split
  all_goals simp

theorem handleRelayEvent_frame (T : Tables) (spaceKey : String)
    (space : Space) (tag : String) (sn sid : JValue) (st : HState) :
    (handleRelayEvent T spaceKey space tag sn sid st).1.recentEvents
        = st.recentEvents ∧
    (handleRelayEvent T spaceKey space tag sn sid st).1.dedupWindow
        = st.dedupWindow ∧
    (handleRelayEvent T spaceKey space tag sn sid st).1.lastStateUpdate
        = st.lastStateUpdate := by
  unfold handleRelayEvent
  repeat' split
  all_goals simp

theorem handleScenarioEvent_frame (space : Space)
    (ef : List (String × JValue)) (tag : String) (st : HState) :
    (handleScenarioEvent space ef tag st).1.recentEvents = st.recentEvents ∧
    (handleScenarioEvent space ef tag st).1.dedupWindow = st.dedupWindow ∧
    (handleScenarioEvent space ef tag st).1.lastStateUpdate
        = st.lastStateUpdate ∧
    (handleScenarioEvent space ef tag st).1.spaces = st.spaces := by
  unfold handleScenarioEvent
  dsimp only []
  repeat' split
  all_goals simp

theorem finishDispatch_frame (cat : Category) (r : HState × Option PyErr) :
    (finishDispatch cat r).1.recentEvents = r.1.recentEvents ∧
    (finishDispatch cat r).1.dedupWindow = r.1.dedupWindow ∧
    (finishDispatch cat r).1.lastStateUpdate = r.1.lastStateUpdate := by
  rcases r with ⟨st, e⟩
  cases e <;> simp [finishDispatch]

theorem finishDispatch_outcome (cat : Category) (r : HState × Option PyErr) :
    (finishDispatch cat r).2 = .processed cat ∨
    ∃ e, (finishDispatch cat r).2 = .raised e := by
  rcases r with ⟨st, e⟩
  cases e <;> simp [finishDispatch]

set_option maxHeartbeats 1600000 in
/-- Dispatch never touches the dedup cache, the dedup window or the
protection map of any handler other than the security one. -/
theorem dispatchEvent_frame (T : Tables) (pending : String → Bool)
    (now : Int) (nowIso : String) (spaceKey : String) (space : Space)
    (ne : NormEvent) (st : HState) :
    (dispatchEvent T pending now nowIso spaceKey space ne st).1.recentEvents
        = st.recentEvents ∧
    (dispatchEvent T pending now nowIso spaceKey space ne st).1.dedupWindow
        = st.dedupWindow := by
  unfold dispatchEvent
  repeat' split
  all_goals first
    | exact ⟨((finishDispatch_frame _ _).1).trans
          (handleSecurityEvent_frame _ _ _ _ _ _ _ _).1,
        ((finishDispatch_frame _ _).2.1).trans
          (handleSecurityEvent_frame _ _ _ _ _ _ _ _).2⟩
    | exact ⟨((finishDispatch_frame _ _).1).trans
          (handleDoorEvent_frame _ _ _ _ _ _ _ _ _).1,
        ((finishDispatch_frame _ _).2.1).trans
          (handleDoorEvent_frame _ _ _ _ _ _ _ _ _).2.1⟩
    | exact ⟨((finishDispatch_frame _ _).1).trans
          (handleMotionEvent_frame _ _ _ _ _ _ _ _).1,
        ((finishDispatch_frame _ _).2.1).trans
          (handleMotionEvent_frame _ _ _ _ _ _ _ _).2.1⟩
    | exact ⟨((finishDispatch_frame _ _).1).trans
          (handleSmokeEvent_frame _ _ _ _ _ _ _).1,
        ((finishDispatch_frame _ _).2.1).trans
          (handleSmokeEvent_frame _ _ _ _ _ _ _).2.1⟩
    | exact ⟨((finishDispatch_frame _ _).1).trans
          (handleFloodEvent_frame _ _ _ _ _ _ _).1,
        ((finishDispatch_frame _ _).2.1).trans
          (handleFloodEvent_frame _ _ _ _ _ _ _).2.1⟩
    | exact ⟨((finishDispatch_frame _ _).1).trans
          (handleGlassEvent_frame _ _ _ _ _ _ _).1,
        ((finishDispatch_frame _ _).2.1).trans
          (handleGlassEvent_frame _ _ _ _ _ _ _).2.1⟩
    | exact ⟨((finishDispatch_frame _ _).1).trans
          (handleTamperEvent_frame _ _ _ _ _ _ _ _).1,
        ((finishDispatch_frame _ _).2.1).trans
          (handleTamperEvent_frame _ _ _ _ _ _ _ _).2.1⟩
    | exact ⟨((finishDispatch_frame _ _).1).trans
          (handleDeviceStatusEvent_frame _ _ _ _ _ _ _).1,
        ((finishDispatch_frame _ _).2.1).trans
          (handleDeviceStatusEvent_frame _ _ _ _ _ _ _).2.1⟩
    | exact ⟨((finishDispatch_frame _ _).1).trans
          (handleRelayEvent_frame _ _ _ _ _ _ _).1,
        ((finishDispatch_frame _ _).2.1).trans
          (handleRelayEvent_frame _ _ _ _ _ _ _).2.1⟩
    | exact ⟨((finishDispatch_frame _ _).1).trans
          (handleScenarioEvent_frame _ _ _ _).1,
        ((finishDispatch_frame _ _).2.1).trans
          (handleScenarioEvent_frame _ _ _ _).2.1⟩
    | simp

set_option maxHeartbeats 1600000 in
/-- Dispatch outcomes are only `processed` or `raised`: in particular
never a dedup suppression or a malformed drop. -/
theorem dispatchEvent_outcome (T : Tables) (pending : String → Bool)
    (now : Int) (nowIso : String) (spaceKey : String) (space : Space)
    (ne : NormEvent) (st : HState) :
    (dispatchEvent T pending now nowIso spaceKey space ne st).2
        ≠ .suppressed ∧
    (dispatchEvent T pending now nowIso spaceKey space ne st).2
        ≠ .malformed := by
  unfold dispatchEvent
  repeat' split
  all_goals first
    | (constructor <;> (unfold finishDispatch; split <;> simp))
    | simp

theorem tameOutcome_ne_raised (o : Outcome) (e : PyErr) :
    tameOutcome o ≠ .raised e := by
  cases o <;> simp [tameOutcome]

theorem tameOutcome_eq_suppressed_iff (o : Outcome) :
    tameOutcome o = .suppressed ↔ o = .suppressed := by
  cases o <;> simp [tameOutcome]

theorem tameOutcome_eq_malformed_iff (o : Outcome) :
    tameOutcome o = .malformed ↔ o = .malformed := by
  cases o <;> simp [tameOutcome]

/-- Unfolding `_handle_event` past a dedup pass. -/
theorem handleEventBody_passed (T : Tables)
    (pec : JValue → Except PyErr (Option EventCodeInfo))
    (pending : String → Bool) (now : Int) (nowIso : String) (st : HState)
    (p : JValue) (ne : NormEvent)
    (h1 : normalizeEvent pec p = .ok (.go ne))
    (h2 : ¬(now - dictGetD st.recentEvents (eventKey ne) 0 < st.dedupWindow)) :
    handleEventBody T pec pending now nowIso st p =
      match (postDedupState st (eventKey ne) now).spaces.find?
          (fun e => jEqStr ne.hubId e.2.hubId) with
      | none => (postDedupState st (eventKey ne) now, .unknownHub)
      | some (spaceKey, space) =>
        dispatchEvent T pending now nowIso spaceKey space ne
          (postDedupState st (eventKey ne) now) := by
  unfold handleEventBody
  rw [h1]
  dsimp only []
  rw [if_neg h2]

/-- Unfolding `_handle_event` at a dedup suppression: the whole state is
returned untouched. -/
theorem handleEvent_suppressed (T : Tables)
    (pec : JValue → Except PyErr (Option EventCodeInfo))
    (pending : String → Bool) (now : Int) (nowIso : String) (st : HState)
    (p : JValue) (ne : NormEvent)
    (h1 : normalizeEvent pec p = .ok (.go ne))
    (h2 : now - dictGetD st.recentEvents (eventKey ne) 0 < st.dedupWindow) :
    handleEvent T pec pending now nowIso st p = (st, .suppressed) := by
  unfold handleEvent handleEventBody
  rw [h1]
  dsimp only []
  rw [if_pos h2]
  rfl

/-- After a dedup pass the processed delivery's own timestamp is
recorded under its key, the window is unchanged, and the outcome is
neither a suppression nor a malformed drop. -/
theorem handleEvent_passed (T : Tables)
    (pec : JValue → Except PyErr (Option EventCodeInfo))
    (pending : String → Bool) (now : Int) (nowIso : String) (st : HState)
    (p : JValue) (ne : NormEvent)
    (h1 : normalizeEvent pec p = .ok (.go ne))
    (h2 : ¬(now - dictGetD st.recentEvents (eventKey ne) 0 < st.dedupWindow)) :
    dictGet (handleEvent T pec pending now nowIso st p).1.recentEvents
        (eventKey ne) = some now ∧
    (handleEvent T pec pending now nowIso st p).1.dedupWindow
        = st.dedupWindow ∧
    (handleEvent T pec pending now nowIso st p).2 ≠ .suppressed ∧
    (handleEvent T pec pending now nowIso st p).2 ≠ .malformed := by
  have hkey : dictGet (postDedupState st (eventKey ne) now).recentEvents
      (eventKey ne) = some now := by
    unfold postDedupState
    exact dictGet_filter_dictSet _ _ _ _ (by simp)
  have hwin : (postDedupState st (eventKey ne) now).dedupWindow
      = st.dedupWindow := rfl
  unfold handleEvent
  rw [handleEventBody_passed T pec pending now nowIso st p ne h1 h2]
  rcases hf : (postDedupState st (eventKey ne) now).spaces.find?
      (fun e => jEqStr ne.hubId e.2.hubId) with _ | ⟨spaceKey, space⟩
  · simp only [hf]
    exact ⟨hkey, rfl, by simp [tameOutcome], by simp [tameOutcome]⟩
  · simp only [hf]
    have hframe := dispatchEvent_frame T pending now nowIso spaceKey space ne
      (postDedupState st (eventKey ne) now)
    have hout := dispatchEvent_outcome T pending now nowIso spaceKey space ne
      (postDedupState st (eventKey ne) now)
    refine ⟨hframe.1.symm ▸ hkey, hframe.2.trans hwin, ?_, ?_⟩
    · exact fun h => hout.1 ((tameOutcome_eq_suppressed_iff _).mp h)
    · exact fun h => hout.2 ((tameOutcome_eq_malformed_iff _).mp h)

theorem dictGet_dictSet_ne {α : Type} (l : List (String × α)) (k k' : String)
    (v : α) (h : k ≠ k') : dictGet (dictSet l k' v) k = dictGet l k := by
  induction l with
  | nil =>
    simp [dictGet, dictSet, List.find?, show (k' == k) = false by
      simp [Ne.symm h]]
  | cons e t ih =>
    by_cases he : e.1 == k'
    · have hek : (e.1 == k) = false := by
        have : e.1 = k' := by simpa using he
        simp [this, Ne.symm h]
      simp [dictSet, he, dictGet, List.find?_cons, hek,
        show (k' == k) = false by simp [Ne.symm h]]
    · simp only [dictSet, he, if_neg]
      simp only [dictGet, List.find?_cons] at ih ⊢
      by_cases hek : e.1 == k
      · simp [hek]
      · simpa [hek] using ih

/-! ## Claim C6 — the protection window check -/

/-- C6, counterexample: the claim says a hub that was never marked
reports unprotected, but `is_state_protected` defaults a missing entry
to timestamp 0, so any query within 5 of the epoch reports protected. -/
theorem c6_counterexample : isStateProtected [] "H1" 3 = true := by decide

/-- C6 (amended): `is_state_protected` returns true exactly when
`now - lastMark < 5` for a marked hub; a hub never marked carries the
default mark 0 (the epoch), hence reports unprotected only for queries
at time ≥ 5. -/
theorem c6_amended_protection_window (lsu : List (String × Int))
    (hub : String) (now t : Int) :
    (dictGet lsu hub = some t →
      (isStateProtected lsu hub now = true ↔ now - t < 5)) ∧
    (dictGet lsu hub = none → 5 ≤ now →
      isStateProtected lsu hub now = false) := by
  constructor
  · intro h
    simp [isStateProtected, dictGetD, h]
  · intro h h5
    simp only [isStateProtected, dictGetD, h, Option.getD_none]
    simpa using by omega

theorem c6_witness :
    ((isStateProtected [("H1", 1000)] "H1" 1004 = true ↔
        (1004 : Int) - 1000 < 5) ∧
      isStateProtected [("H1", 1000)] "H1" 1005 = false) ∧
    isStateProtected [] "H1" 7 = false := by
  refine ⟨⟨(c6_amended_protection_window [("H1", 1000)] "H1" 1004 1000).1
      (by decide), ?_⟩,
    (c6_amended_protection_window [] "H1" 7 0).2 (by decide) (by decide)⟩
  have h := (c6_amended_protection_window [("H1", 1000)] "H1" 1005 1000).1
    (by decide)
  simp only [show ¬((1005 : Int) - 1000 < 5) by decide, iff_false] at h
  simpa using h

/-! ## Claim C7 — every security event emits exactly one notification -/

/-- C7: every security event whose tag is in the state table appends
exactly one audit notification — whether or not the state changed and
whether or not it is a group event — and its source name is
"Home Assistant" exactly when a pending locally-issued command is
recorded for the hub. -/
theorem c7_security_notification (T : Tables) (pending : String → Bool)
    (now : Int) (spaceKey : String) (space : Space) (tag : String)
    (sn : JValue) (st : HState) (ns : SecurityState)
    (h : dictGet T.eventTagToState tag = some ns) :
    (handleSecurityEvent T pending now spaceKey space tag sn st).1.notifications
        = st.notifications ++
          [⟨ns.value,
            if pending space.hubId then JValue.str "Home Assistant" else sn,
            space.name⟩] ∧
    (handleSecurityEvent T pending now spaceKey space tag sn st).2 = none := by
  unfold handleSecurityEvent
  rw [h]
  dsimp only []
  constructor
  · repeat' split
    all_goals simp
  · simp

theorem c7_witness :
    (handleSecurityEvent
        ⟨[("disarm", ⟨"disarmed"⟩)], [], [], [], [], [], [], [], [], []⟩
        (fun _ => true) 1000 "S1" ⟨"H1", "Home", ⟨"armed"⟩, []⟩ "disarm"
        (.str "Bob") ⟨[], [], 5, [], [], [], 0, 0⟩).1.notifications
      = [⟨"disarmed", .str "Home Assistant", "Home"⟩] := by
  have h := c7_security_notification
    ⟨[("disarm", ⟨"disarmed"⟩)], [], [], [], [], [], [], [], [], []⟩
    (fun _ => true) 1000 "S1" ⟨"H1", "Home", ⟨"armed"⟩, []⟩ "disarm"
    (.str "Bob") ⟨[], [], 5, [], [], [], 0, 0⟩ ⟨"disarmed"⟩ (by rfl)
  simpa using h.1

/-! ## Claim C3 — door/tamper transition overrides the table default -/

/-- C3: for door and tamper events on a resolved device, transition
`RECOVERED` writes `false` and `TRIGGERED` writes `true` to the
respective attribute (`door_opened` / `tampered`) regardless of the
table default, and any other transition writes the table default. -/
theorem c3_transition_override (T : Tables) (nowIso spaceKey : String)
    (space : Space) (tagD tagT : String) (sn sid : JValue) (trans : String)
    (st : HState) (akD akT : String) (dD dT : Bool) (devKey : String)
    (dev : Device)
    (hdoor : dictGet T.doorEvents tagD = some (akD, dD))
    (htamp : dictGet T.tamperEvents tagT = some (akT, dT))
    (hfind : findDeviceEntry space.devices sn sid
        = Except.ok (some (devKey, dev))) :
    (∃ sp, dictGet
        (handleDoorEvent T nowIso spaceKey space tagD sn sid trans st).1.spaces
        spaceKey = some sp ∧
      ∃ dv, dictGet sp.devices devKey = some dv ∧
        dictGet dv.attributes "door_opened" =
          some (.bool (if trans == "RECOVERED" then false
            else if trans == "TRIGGERED" then true else dD))) ∧
    ∃ sp, dictGet
        (handleTamperEvent T spaceKey space tagT sn sid trans st).1.spaces
        spaceKey = some sp ∧
      ∃ dv, dictGet sp.devices devKey = some dv ∧
        dictGet dv.attributes "tampered" =
          some (.bool (if trans == "RECOVERED" then false
            else if trans == "TRIGGERED" then true else dT)) := by
  constructor
  · unfold handleDoorEvent
    rw [hdoor]
    dsimp only []
    rw [hfind]
    dsimp only []
    refine ⟨_, dictGet_dictSet_self _ _ _, _, dictGet_dictSet_self _ _ _, ?_⟩
    rw [dictGet_dictSet_ne _ _ _ _ (by decide)]
    exact dictGet_dictSet_self _ _ _
  · unfold handleTamperEvent
    rw [htamp]
    dsimp only []
    rw [hfind]
    dsimp only []
    exact ⟨_, dictGet_dictSet_self _ _ _, _, dictGet_dictSet_self _ _ _,
      dictGet_dictSet_self _ _ _⟩

theorem c3_witness :
    (∃ sp, dictGet
        (handleDoorEvent
          ⟨[], [("dooropened", ("door_opened", true))], [], [], [], [],
            [("tamper", ("tamper_alarm", true))], [], [], []⟩
          "ISO" "S1" ⟨"H1", "Home", ⟨"armed"⟩, [("D1", ⟨"D1", "Door", true, []⟩)]⟩
          "dooropened" (.str "") (.str "D1") "RECOVERED"
          ⟨[], [], 5, [], [], [], 0, 0⟩).1.spaces "S1" = some sp ∧
      ∃ dv, dictGet sp.devices "D1" = some dv ∧
        dictGet dv.attributes "door_opened" = some (.bool false)) ∧
    ∃ sp, dictGet
        (handleTamperEvent
          ⟨[], [("dooropened", ("door_opened", true))], [], [], [], [],
            [("tamper", ("tamper_alarm", true))], [], [], []⟩
          "S1" ⟨"H1", "Home", ⟨"armed"⟩, [("D1", ⟨"D1", "Door", true, []⟩)]⟩
          "tamper" (.str "") (.str "D1") "RECOVERED"
          ⟨[], [], 5, [], [], [], 0, 0⟩).1.spaces "S1" = some sp ∧
      ∃ dv, dictGet sp.devices "D1" = some dv ∧
        dictGet dv.attributes "tampered" = some (.bool false) := by
  have h := c3_transition_override
    ⟨[], [("dooropened", ("door_opened", true))], [], [], [], [],
      [("tamper", ("tamper_alarm", true))], [], [], []⟩
    "ISO" "S1" ⟨"H1", "Home", ⟨"armed"⟩, [("D1", ⟨"D1", "Door", true, []⟩)]⟩
    "dooropened" "tamper" (.str "") (.str "D1") "RECOVERED"
    ⟨[], [], 5, [], [], [], 0, 0⟩ "door_opened" "tamper_alarm" true true
    "D1" ⟨"D1", "Door", true, []⟩ (by rfl) (by rfl) (by rfl)
  simpa using h

/-! ## Claims C4/C5 — device resolution -/

/-- The resolution procedure exactly as claim C4 words it, for
comparison with the source's `_find_device`: (1) exact match of
`sourceId` against a device id; (2) suffix match only for an 8-character
`sourceId` against a 16-character device id ending with it; (3) exact
case-sensitive name match; nothing otherwise.  (The claim states no
nonemptiness conditions.) -/
def findDeviceSpecC4 (devices : List (String × Device))
    (sourceName sourceId : String) : Option Device :=
  match devices.find? (fun e => e.2.id == sourceId) with
  | some e => some e.2
  | none =>
    match (if sourceId.length == 8 then
        devices.find?
          (fun e => e.2.id.length == 16 && strEndsWith e.2.id sourceId)
      else none) with
    | some e => some e.2
    | none =>
      (devices.find? (fun e => e.2.name == sourceName)).map Prod.snd

/-- Claim C4 as amended: steps (1)–(2) are attempted only when
`sourceId` is nonempty and step (3) only when `sourceName` is nonempty,
mirroring the code's `if source_id:` / `if source_name:` guards. -/
def findDeviceSpecC4Guarded (devices : List (String × Device))
    (sourceName sourceId : String) : Option Device :=
  match (if sourceId != "" then
      devices.find? (fun e => e.2.id == sourceId)
    else none) with
  | some e => some e.2
  | none =>
    match (if sourceId.length == 8 then
        devices.find?
          (fun e => e.2.id.length == 16 && strEndsWith e.2.id sourceId)
      else none) with
    | some e => some e.2
    | none =>
      if sourceName != "" then
        (devices.find? (fun e => e.2.name == sourceName)).map Prod.snd
      else none

theorem suffixScan_str (s : String) : ∀ (l : List (String × Device)),
    suffixScan (.str s) l =
      .ok (l.find? (fun e => e.2.id.length == 16 && strEndsWith e.2.id s))
  | [] => rfl
  | e :: t => by
    by_cases h16 : (e.2.id.length == 16) = true
    · by_cases hew : strEndsWith e.2.id s = true
      · simp [suffixScan, h16, hew, List.find?_cons]
      · simp [suffixScan, h16, hew, List.find?_cons, suffixScan_str s t]
    · simp [suffixScan, h16, List.find?_cons, suffixScan_str s t]

/-- C4, counterexample: with `sourceId = ""` and `sourceName = ""`
against a device whose name is `""`, the claim's procedure resolves the
device by name match, but `_find_device` skips the name stage for a
falsy `source_name` and returns nothing. -/
theorem c4_counterexample :
    findDeviceRes [("D1", ⟨"D1", "", true, []⟩)] (.str "") (.str "")
        = Except.ok none ∧
    findDeviceSpecC4 [("D1", ⟨"D1", "", true, []⟩)] "" ""
        = some ⟨"D1", "", true, []⟩ :=
  ⟨rfl, rfl⟩

/-- C4 (amended): on string inputs, and under the dict invariant that
each device is stored under its own id, `_find_device` implements
exactly the claim's three-stage resolution order with the code's
nonemptiness guards added: exact id match (for nonempty `sourceId`),
then 8-against-16 suffix match, then exact name match (for nonempty
`sourceName`), else nothing. -/
theorem c4_amended_resolution_order (devices : List (String × Device))
    (sn sid : String) (hkeys : ∀ e ∈ devices, e.1 = e.2.id) :
    findDeviceRes devices (.str sn) (.str sid)
      = Except.ok (findDeviceSpecC4Guarded devices sn sid) := by
  have hks : devices.find? (fun e => e.1 == sid)
      = devices.find? (fun e => e.2.id == sid) :=
    find?_congr devices (fun x hx => by rw [hkeys x hx])
  have hname : devices.find? (fun e => jEqStr (.str sn) e.2.name)
      = devices.find? (fun e => e.2.name == sn) :=
    find?_congr devices (fun x hx => by simp [jEqStr, eq_comm])
  unfold findDeviceRes findDeviceEntry findDeviceSpecC4Guarded exactIdStage
    nameScan pyLenEq8
  by_cases hsid : sid = ""
  · subst hsid
    have h8 : ("".length == 8) = false := by decide
    by_cases hsn : sn = ""
    · subst hsn
      simp [jTruthy, h8, Except.map]
    · simp [jTruthy, hsn, hname, h8, Except.map]
  · have hsidb : (sid != "") = true := by simp [hsid]
    simp only [jTruthy, hsidb, if_true, dictGet, hks]
    rcases hf : devices.find? (fun e => e.2.id == sid) with _ | e0
    · by_cases h8 : (sid.length == 8) = true
      · simp only [hf, Option.map_none, h8, if_true,
          suffixScan_str sid devices]
        rcases hf2 : devices.find?
            (fun e => e.2.id.length == 16 && strEndsWith e.2.id sid)
            with _ | e1
        · by_cases hsn : sn = ""
          · subst hsn
            simp [jTruthy, hf2, h8, Except.map]
          · simp [jTruthy, hsn, hname, hf2, h8, Except.map]
        · simp [hf2, h8, Except.map]
      · by_cases hsn : sn = ""
        · subst hsn
          simp [jTruthy, hf, h8, Except.map]
        · simp [jTruthy, hsn, hname, hf, h8, Except.map]
    · simp [hf, Except.map]

theorem c4_witness :
    findDeviceRes
        [("ABCDEFGH12345678", ⟨"ABCDEFGH12345678", "Wire", true, []⟩)]
        (.str "") (.str "12345678")
      = Except.ok (findDeviceSpecC4Guarded
          [("ABCDEFGH12345678", ⟨"ABCDEFGH12345678", "Wire", true, []⟩)]
          "" "12345678") :=
  c4_amended_resolution_order
    [("ABCDEFGH12345678", ⟨"ABCDEFGH12345678", "Wire", true, []⟩)]
    "" "12345678" (by decide)

theorem dictGet_perm {α : Type} {l1 l2 : List (String × α)}
    (hp : l1.Perm l2) :
    (l1.map Prod.fst).Nodup → ∀ k, dictGet l1 k = dictGet l2 k := by
  induction hp with
  | nil => exact fun _ _ => rfl
  | cons x h ih =>
    intro hnd k
    rw [List.map_cons] at hnd
    simp only [dictGet, List.find?_cons]
    cases hx : (x.1 == k)
    · have := ih hnd.of_cons k
      simp only [dictGet] at this
      rw [this]
    · rfl
  | swap x y l =>
    intro hnd k
    rw [List.map_cons, List.map_cons] at hnd
    have hxy : y.1 ≠ x.1 := by
      have h1 := (List.nodup_cons.mp hnd).1
      intro he
      exact h1 (by rw [he]; exact List.mem_cons_self _ _)
    simp only [dictGet, List.find?_cons]
    cases hx : (x.1 == k) <;> cases hy : (y.1 == k) <;> simp
    exact absurd ((by simpa using hy : y.1 = k).trans
      (by simpa using hx : x.1 = k).symm) hxy
  | trans h12 h23 ih12 ih23 =>
    intro hnd k
    exact (ih12 hnd k).trans
      (ih23 ((h12.map Prod.fst).nodup hnd) k)

theorem find?_perm_of_unique {α β : Type} {p : α → Bool} (f : α → β)
    {l1 l2 : List α} (hp : l1.Perm l2)
    (huniq : ∀ a ∈ l1, ∀ b ∈ l1, p a = true → p b = true → f a = f b) :
    (l1.find? p).map f = (l2.find? p).map f := by
  rcases h1 : l1.find? p with _ | a
  · rw [List.find?_eq_none.mpr
      (fun x hx => List.find?_eq_none.mp h1 x (hp.mem_iff.mpr hx))]
  · have ha_mem := List.mem_of_find?_eq_some h1
    have ha_p := List.find?_some h1
    rcases h2 : l2.find? p with _ | b
    · exact absurd ha_p (by
        simpa using List.find?_eq_none.mp h2 a (hp.mem_iff.mp ha_mem))
    · have hb_mem : b ∈ l1 := hp.mem_iff.mpr (List.mem_of_find?_eq_some h2)
      have hb_p := List.find?_some h2
      simp [huniq a ha_mem b hb_mem ha_p hb_p]

/-- C5, counterexample: with two distinct devices sharing the name the
event reports, name-based resolution returns whichever device the
iteration order reaches first, so it is not order-independent. -/
theorem c5_counterexample :
    ([("A", ⟨"A", "S", true, []⟩), ("B", ⟨"B", "S", true, []⟩)] :
        List (String × Device)).Perm
      [("B", ⟨"B", "S", true, []⟩), ("A", ⟨"A", "S", true, []⟩)] ∧
    findDeviceRes [("A", ⟨"A", "S", true, []⟩), ("B", ⟨"B", "S", true, []⟩)]
        (.str "S") (.str "") = Except.ok (some ⟨"A", "S", true, []⟩) ∧
    findDeviceRes [("B", ⟨"B", "S", true, []⟩), ("A", ⟨"A", "S", true, []⟩)]
        (.str "S") (.str "") = Except.ok (some ⟨"B", "S", true, []⟩) ∧
    (⟨"A", "S", true, []⟩ : Device) ≠ ⟨"B", "S", true, []⟩ := by
  refine ⟨List.Perm.swap _ _ _, rfl, rfl, fun h => ?_⟩
  exact absurd (congrArg Device.id h) (by decide)

/-- C5 (amended): device resolution is order-independent for exact-id
matches (the mapping's keys being unique, as in a Python dict), and for
name matches provided no two devices of the space that bear the matched
name differ; with duplicate names the resolver returns the first in
iteration order. -/
theorem c5_amended_order_independence (l1 l2 : List (String × Device))
    (sn sid : String) (hp : l1.Perm l2)
    (hnd : (l1.map Prod.fst).Nodup) :
    (∀ d, sid ≠ "" → dictGet l1 sid = some d →
      findDeviceRes l1 (.str sn) (.str sid) = .ok (some d) ∧
      findDeviceRes l2 (.str sn) (.str sid) = .ok (some d)) ∧
    ((sid = "" ∨ dictGet l1 sid = none) →
      (sid.length = 8 →
        ∀ e ∈ l1, (e.2.id.length == 16 && strEndsWith e.2.id sid) = false) →
      (∀ a ∈ l1, ∀ b ∈ l1, a.2.name = sn → b.2.name = sn → a.2 = b.2) →
      findDeviceRes l1 (.str sn) (.str sid)
        = findDeviceRes l2 (.str sn) (.str sid)) := by
  constructor
  · intro d hsid hget
    have hget2 : dictGet l2 sid = some d := (dictGet_perm hp hnd sid).symm ▸ hget
    have hsidb : (sid != "") = true := by simp [hsid]
    constructor <;>
      simp [findDeviceRes, findDeviceEntry, exactIdStage, jTruthy, hsidb,
        hget, hget2, Except.map]
  · intro hex hsuf huniq
    have hex2 : sid = "" ∨ dictGet l2 sid = none := by
      rcases hex with h | h
      · exact .inl h
      · exact .inr ((dictGet_perm hp hnd sid) ▸ h)
    have hname : (l1.find? (fun e => jEqStr (.str sn) e.2.name)).map
          Prod.snd
        = (l2.find? (fun e => jEqStr (.str sn) e.2.name)).map
          Prod.snd := by
      apply find?_perm_of_unique _ hp
      intro a ha b hb hpa hpb
      have hna : a.2.name = sn := by
        have h' := hpa
        simp only [jEqStr, beq_iff_eq] at h'
        exact h'.symm
      have hnb : b.2.name = sn := by
        have h' := hpb
        simp only [jEqStr, beq_iff_eq] at h'
        exact h'.symm
      exact huniq a ha b hb hna hnb
    by_cases hsid : sid = ""
    · subst hsid
      by_cases hsn : sn = ""
      · subst hsn
        simp [findDeviceRes, findDeviceEntry, jTruthy]
      · simp only [findDeviceRes, findDeviceEntry, nameScan, jTruthy,
          bne_self_eq_false, Bool.false_eq_true, if_false,
          bne_iff_ne, ne_eq, hsn, not_false_eq_true, if_true]
        simp only [Except.map]
        exact congrArg Except.ok hname
    · have hsidb : (sid != "") = true := by simp [hsid]
      rcases hex with h | h
      · exact absurd h hsid
      · have h2 := hex2.resolve_left hsid
        by_cases h8 : (sid.length == 8) = true
        · have hsuf1 := hsuf (by simpa using h8)
          have hsuff1 : l1.find?
              (fun e => e.2.id.length == 16 && strEndsWith e.2.id sid)
              = none :=
            List.find?_eq_none.mpr (fun x hx => by simp [hsuf1 x hx])
          have hsuff2 : l2.find?
              (fun e => e.2.id.length == 16 && strEndsWith e.2.id sid)
              = none :=
            List.find?_eq_none.mpr (fun x hx => by
              simp [hsuf1 x (hp.mem_iff.mpr hx)])
          by_cases hsn : sn = ""
          · subst hsn
            simp [findDeviceRes, findDeviceEntry, exactIdStage, pyLenEq8,
              jTruthy, hsidb, h, h2, h8, suffixScan_str, hsuff1, hsuff2]
          · simp only [findDeviceRes, findDeviceEntry, exactIdStage,
              pyLenEq8, nameScan, jTruthy, hsidb, if_true, h, h2,
              Option.map_none, h8, suffixScan_str, hsuff1, hsuff2,
              bne_iff_ne, ne_eq, hsn, not_false_eq_true]
            simp only [Except.map]
            exact congrArg Except.ok hname
        · by_cases hsn : sn = ""
          · subst hsn
            simp [findDeviceRes, findDeviceEntry, exactIdStage, pyLenEq8,
              jTruthy, hsidb, h, h2, h8]
          · simp only [findDeviceRes, findDeviceEntry, exactIdStage,
              pyLenEq8, nameScan, jTruthy, hsidb, if_true, h, h2,
              Option.map_none, h8, Bool.false_eq_true, if_false,
              bne_iff_ne, ne_eq, hsn, not_false_eq_true]
            simp only [Except.map]
            exact congrArg Except.ok hname

theorem c5_witness :
    (findDeviceRes
        [("D1", ⟨"D1", "N1", true, []⟩), ("D2", ⟨"D2", "N2", true, []⟩)]
        (.str "") (.str "D2") = Except.ok (some ⟨"D2", "N2", true, []⟩) ∧
      findDeviceRes
        [("D2", ⟨"D2", "N2", true, []⟩), ("D1", ⟨"D1", "N1", true, []⟩)]
        (.str "") (.str "D2") = Except.ok (some ⟨"D2", "N2", true, []⟩)) ∧
    findDeviceRes
        [("D1", ⟨"D1", "N1", true, []⟩), ("D2", ⟨"D2", "N2", true, []⟩)]
        (.str "N2") (.str "")
      = findDeviceRes
        [("D2", ⟨"D2", "N2", true, []⟩), ("D1", ⟨"D1", "N1", true, []⟩)]
        (.str "N2") (.str "") := by
  have h := c5_amended_order_independence
    [("D1", ⟨"D1", "N1", true, []⟩), ("D2", ⟨"D2", "N2", true, []⟩)]
    [("D2", ⟨"D2", "N2", true, []⟩), ("D1", ⟨"D1", "N1", true, []⟩)]
    "N2" "" (List.Perm.swap _ _ _) (by decide)
  have h2 := c5_amended_order_independence
    [("D1", ⟨"D1", "N1", true, []⟩), ("D2", ⟨"D2", "N2", true, []⟩)]
    [("D2", ⟨"D2", "N2", true, []⟩), ("D1", ⟨"D1", "N1", true, []⟩)]
    "" "D2" (List.Perm.swap _ _ _) (by decide)
  refine ⟨h2.1 ⟨"D2", "N2", true, []⟩ (by decide) (by rfl), ?_⟩
  apply h.2 (.inl rfl) (fun hlen => absurd hlen (by decide))
  intro a ha b hb hpa hpb
  simp only [List.mem_cons, List.not_mem_nil, or_false] at ha hb
  rcases ha with ha | ha <;> rcases hb with hb | hb <;>
    subst ha <;> subst hb <;>
    first
      | rfl
      | exact absurd hpa (by decide)
      | exact absurd hpb (by decide)

/-! ## Claim C10 — dropped deliveries still arm the dedup window -/

/-- C10: the dedup record is written (and the cache pruned) before hub
lookup and category dispatch, so a delivery that is afterwards dropped —
unknown hub, a tag in no category table, or a door event whose device
cannot be resolved — leaves the model (spaces, notifications) untouched
yet still records its arrival time, and an identical delivery within
the window is suppressed; the dedup write is never rolled back. -/
theorem c10_dedup_armed_on_drop (T : Tables)
    (pec : JValue → Except PyErr (Option EventCodeInfo))
    (pending : String → Bool) (nowIso : String) (st : HState) (p : JValue)
    (ne : NormEvent) (t1 t2 : Int)
    (h1 : normalizeEvent pec p = .ok (.go ne))
    (hfirst : ¬(t1 - dictGetD st.recentEvents (eventKey ne) 0
        < st.dedupWindow))
    (hdrop :
      (∀ e ∈ st.spaces, jEqStr ne.hubId e.2.hubId = false) ∨
      (dictGet T.eventTagToState ne.eventTag = none ∧
        dictGet T.doorEvents ne.eventTag = none ∧
        dictGet T.motionEvents ne.eventTag = none ∧
        dictGet T.smokeEvents ne.eventTag = none ∧
        dictGet T.floodEvents ne.eventTag = none ∧
        dictGet T.glassEvents ne.eventTag = none ∧
        dictGet T.tamperEvents ne.eventTag = none ∧
        dictGet T.deviceStatusEvents ne.eventTag = none ∧
        dictGet T.relayEvents ne.eventTag = none ∧
        T.scenarioEvents.contains ne.eventTag = false) ∨
      (∃ spaceKey space ak df,
        st.spaces.find? (fun e => jEqStr ne.hubId e.2.hubId)
          = some (spaceKey, space) ∧
        dictGet T.eventTagToState ne.eventTag = none ∧
        dictGet T.doorEvents ne.eventTag = some (ak, df) ∧
        findDeviceEntry space.devices ne.sourceName ne.sourceId
          = Except.ok none)) :
    (handleEvent T pec pending t1 nowIso st p).1.spaces = st.spaces ∧
    (handleEvent T pec pending t1 nowIso st p).1.notifications
        = st.notifications ∧
    dictGet (handleEvent T pec pending t1 nowIso st p).1.recentEvents
        (eventKey ne) = some t1 ∧
    (t2 - t1 < st.dedupWindow →
      handleEvent T pec pending t2 nowIso
          (handleEvent T pec pending t1 nowIso st p).1 p
        = ((handleEvent T pec pending t1 nowIso st p).1, .suppressed)) := by
  obtain ⟨ha1, ha2, ha3, ha4⟩ :=
    handleEvent_passed T pec pending t1 nowIso st p ne h1 hfirst
  have hlast : dictGetD
      (handleEvent T pec pending t1 nowIso st p).1.recentEvents
      (eventKey ne) 0 = t1 := by
    rw [dictGetD, ha1]
    rfl
  have hsupp : t2 - t1 < st.dedupWindow →
      handleEvent T pec pending t2 nowIso
          (handleEvent T pec pending t1 nowIso st p).1 p
        = ((handleEvent T pec pending t1 nowIso st p).1, .suppressed) := by
    intro hlt
    apply handleEvent_suppressed T pec pending t2 nowIso _ p ne h1
    rw [hlast, ha2]
    exact hlt
  refine ⟨?_, ?_, ha1, hsupp⟩ <;>
  · unfold handleEvent
    rw [handleEventBody_passed T pec pending t1 nowIso st p ne h1 hfirst]
    have hsp : (postDedupState st (eventKey ne) t1).spaces = st.spaces := rfl
    rcases hdrop with h | h | h
    · have hnone : (postDedupState st (eventKey ne) t1).spaces.find?
          (fun e => jEqStr ne.hubId e.2.hubId) = none := by
        rw [hsp]
        exact List.find?_eq_none.mpr (by simpa using h)
      rw [hnone]
      rfl
    · rcases hf : (postDedupState st (eventKey ne) t1).spaces.find?
          (fun e => jEqStr ne.hubId e.2.hubId) with _ | ⟨spaceKey, space⟩
      · rw [hf]
        rfl
      · rw [hf]
        obtain ⟨hs1, hs2, hs3, hs4, hs5, hs6, hs7, hs8, hs9, hs10⟩ := h
        dsimp only []
        unfold dispatchEvent
        simp only [hs1, hs2, hs3, hs4, hs5, hs6, hs7, hs8, hs9, hs10,
          Option.isSome_none, Bool.false_eq_true, if_false]
        rfl
    · obtain ⟨spaceKey, space, ak, df, hfind, hsec, hdoor, hdev⟩ := h
      rw [show (postDedupState st (eventKey ne) t1).spaces.find?
          (fun e => jEqStr ne.hubId e.2.hubId) = some (spaceKey, space) by
        rw [hsp]; exact hfind]
      dsimp only []
      unfold dispatchEvent
      simp only [hsec, Option.isSome_none, Bool.false_eq_true, if_false,
        hdoor, Option.isSome_some, if_true]
      unfold handleDoorEvent
      rw [hdoor]
      dsimp only []
      rw [hdev]
      rfl

theorem c10_witness :
    (handleEvent
        ⟨[], [("dooropened", ("door_opened", true))], [], [], [], [], [],
          [], [], []⟩
        (fun _ => .ok none) (fun _ => false) 1000 "ISO"
        ⟨[], [], 5,
          [("S1", ⟨"H1", "Home", ⟨"armed"⟩,
            [("D1", ⟨"D1", "Front Door", true, []⟩)]⟩)], [], [], 0, 0⟩
        (.obj [("eventTag", .str "DoorOpened"), ("hubId", .str "HX"),
          ("deviceId", .str "D9")])).1.spaces
      = [("S1", ⟨"H1", "Home", ⟨"armed"⟩,
          [("D1", ⟨"D1", "Front Door", true, []⟩)]⟩)] ∧
    dictGet (handleEvent
        ⟨[], [("dooropened", ("door_opened", true))], [], [], [], [], [],
          [], [], []⟩
        (fun _ => .ok none) (fun _ => false) 1000 "ISO"
        ⟨[], [], 5,
          [("S1", ⟨"H1", "Home", ⟨"armed"⟩,
            [("D1", ⟨"D1", "Front Door", true, []⟩)]⟩)], [], [], 0, 0⟩
        (.obj [("eventTag", .str "DoorOpened"), ("hubId", .str "HX"),
          ("deviceId", .str "D9")])).1.recentEvents
        "D9:dooropened:TRIGGERED" = some 1000 ∧
    handleEvent
        ⟨[], [("dooropened", ("door_opened", true))], [], [], [], [], [],
          [], [], []⟩
        (fun _ => .ok none) (fun _ => false) 1003 "ISO"
        (handleEvent
          ⟨[], [("dooropened", ("door_opened", true))], [], [], [], [], [],
            [], [], []⟩
          (fun _ => .ok none) (fun _ => false) 1000 "ISO"
          ⟨[], [], 5,
            [("S1", ⟨"H1", "Home", ⟨"armed"⟩,
              [("D1", ⟨"D1", "Front Door", true, []⟩)]⟩)], [], [], 0, 0⟩
          (.obj [("eventTag", .str "DoorOpened"), ("hubId", .str "HX"),
            ("deviceId", .str "D9")])).1
        (.obj [("eventTag", .str "DoorOpened"), ("hubId", .str "HX"),
          ("deviceId", .str "D9")])
      = ((handleEvent
          ⟨[], [("dooropened", ("door_opened", true))], [], [], [], [], [],
            [], [], []⟩
          (fun _ => .ok none) (fun _ => false) 1000 "ISO"
          ⟨[], [], 5,
            [("S1", ⟨"H1", "Home", ⟨"armed"⟩,
              [("D1", ⟨"D1", "Front Door", true, []⟩)]⟩)], [], [], 0, 0⟩
          (.obj [("eventTag", .str "DoorOpened"), ("hubId", .str "HX"),
            ("deviceId", .str "D9")])).1, .suppressed) := by
  have h := c10_dedup_armed_on_drop
    ⟨[], [("dooropened", ("door_opened", true))], [], [], [], [], [],
      [], [], []⟩
    (fun _ => .ok none) (fun _ => false) "ISO"
    ⟨[], [], 5,
      [("S1", ⟨"H1", "Home", ⟨"armed"⟩,
        [("D1", ⟨"D1", "Front Door", true, []⟩)]⟩)], [], [], 0, 0⟩
    (.obj [("eventTag", .str "DoorOpened"), ("hubId", .str "HX"),
      ("deviceId", .str "D9")])
    ⟨"dooropened", .str "HX", .str "", .str "", .str "D9", .str "",
      "UNKNOWN", "TRIGGERED",
      [("eventTag", .str "DoorOpened"), ("hubId", .str "HX"),
        ("deviceId", .str "D9")]⟩
    1000 1003 (by rfl) (by decide) (.inl (by decide))
  exact ⟨h.1, h.2.2.1, h.2.2.2 (by decide)⟩

/-! ## Claim C9 — the top-level exception isolation boundary -/

/-- C9: the handler never lets an exception propagate — every raise of
the body is turned into a logged error with the state kept as of the
raise point — and a stream of deliveries always yields one outcome per
delivery (no event halts processing of subsequent events). -/
theorem c9_exception_isolation (T : Tables)
    (pec : JValue → Except PyErr (Option EventCodeInfo))
    (pending : String → Bool) (now : Int) (nowIso : String) (st : HState)
    (p : JValue) (events : List (Int × JValue)) :
    (∀ e, (handleEvent T pec pending now nowIso st p).2 ≠ .raised e) ∧
    (∀ st' e,
      handleEventBody T pec pending now nowIso st p = (st', .raised e) →
      handleEvent T pec pending now nowIso st p = (st', .errorLogged e)) ∧
    (processEvents T pec pending nowIso st events).2.length
        = events.length := by
  refine ⟨?_, ?_, ?_⟩
  · intro e
    unfold handleEvent
    exact tameOutcome_ne_raised _ e
  · intro st' e h
    unfold handleEvent
    rw [h]
    rfl
  · induction events generalizing st with
    | nil => rfl
    | cons a t ih =>
      rcases a with ⟨tt, pp⟩
      simp [processEvents, ih]

/-! ## Claim C1 — which mutations mark the hub as protected -/

/-- C1, counterexample: a door event mutates the resolved device
(`door_opened` becomes `true`) yet the per-hub protection timestamp is
not updated — `_last_state_update` stays empty and the hub reports
unprotected at the very moment of the mutation.  Only the security
handler ever calls the protection-marking code. -/
theorem c1_counterexample :
    (let r := handleEvent
        ⟨[], [("dooropened", ("door_opened", true))], [], [], [], [], [],
          [], [], []⟩
        (fun _ => .ok none) (fun _ => false) 1000 "ISO"
        ⟨[], [], 5,
          [("S1", ⟨"H1", "Home", ⟨"armed"⟩,
            [("D1", ⟨"D1", "Front Door", true, []⟩)]⟩)], [], [], 0, 0⟩
        (.obj [("eventTag", .str "DoorOpened"), ("hubId", .str "H1"),
          ("deviceId", .str "D1")])
     r.2 = .processed .door ∧
     r.1.lastStateUpdate = [] ∧
     isStateProtected r.1.lastStateUpdate "H1" 1000 = false ∧
     ∃ sp, dictGet r.1.spaces "S1" = some sp ∧
       ∃ dv, dictGet sp.devices "D1" = some dv ∧
         dictGet dv.attributes "door_opened" = some (.bool true)) :=
  ⟨rfl, rfl, rfl, ⟨_, rfl, _, rfl, rfl⟩⟩

/-- C1 (amended): only the security handler updates the per-hub
protection timestamp, and only when the security state actually changed
and the event is not a group arm/disarm — in which case the hub then
reports protected; when the state is unchanged, or the event is a group
arm/disarm, even the security handler leaves the timestamp untouched;
and the door, motion, smoke, flood, glass, tamper, device-status and
relay handlers never touch the protection timestamp. -/
theorem c1_amended_protection_marking (T : Tables)
    (pending : String → Bool) (now : Int) (nowIso spaceKey : String)
    (space : Space) (tag : String) (sn sid : JValue) (trans : String)
    (st : HState) (ns : SecurityState) :
    (dictGet T.eventTagToState tag = some ns →
      space.securityState ≠ ns → tag ≠ "grouparm" → tag ≠ "groupdisarm" →
      (handleSecurityEvent T pending now spaceKey space tag sn
          st).1.lastStateUpdate
        = dictSet st.lastStateUpdate space.hubId now ∧
      isStateProtected
        (handleSecurityEvent T pending now spaceKey space tag sn
          st).1.lastStateUpdate space.hubId now = true) ∧
    (dictGet T.eventTagToState tag = some ns → space.securityState = ns →
      (handleSecurityEvent T pending now spaceKey space tag sn
          st).1.lastStateUpdate = st.lastStateUpdate) ∧
    (tag = "grouparm" ∨ tag = "groupdisarm" →
      (handleSecurityEvent T pending now spaceKey space tag sn
          st).1.lastStateUpdate = st.lastStateUpdate) ∧
    (handleDoorEvent T nowIso spaceKey space tag sn sid trans
        st).1.lastStateUpdate = st.lastStateUpdate ∧
    (handleMotionEvent T nowIso spaceKey space tag sn sid
        st).1.lastStateUpdate = st.lastStateUpdate ∧
    (handleSmokeEvent T spaceKey space tag sn sid st).1.lastStateUpdate
        = st.lastStateUpdate ∧
    (handleFloodEvent T spaceKey space tag sn sid st).1.lastStateUpdate
        = st.lastStateUpdate ∧
    (handleGlassEvent T spaceKey space tag sn sid st).1.lastStateUpdate
        = st.lastStateUpdate ∧
    (handleTamperEvent T spaceKey space tag sn sid trans
        st).1.lastStateUpdate = st.lastStateUpdate ∧
    (handleDeviceStatusEvent T spaceKey space tag sn sid
        st).1.lastStateUpdate = st.lastStateUpdate ∧
    (handleRelayEvent T spaceKey space tag sn sid st).1.lastStateUpdate
        = st.lastStateUpdate := by
  refine ⟨?_, ?_, ?_,
    (handleDoorEvent_frame T nowIso spaceKey space tag sn sid
      trans st).2.2,
    (handleMotionEvent_frame T nowIso spaceKey space tag sn sid st).2.2,
    (handleSmokeEvent_frame T spaceKey space tag sn sid st).2.2,
    (handleFloodEvent_frame T spaceKey space tag sn sid st).2.2,
    (handleGlassEvent_frame T spaceKey space tag sn sid st).2.2,
    (handleTamperEvent_frame T spaceKey space tag sn sid trans st).2.2,
    (handleDeviceStatusEvent_frame T spaceKey space tag sn sid st).2.2,
    (handleRelayEvent_frame T spaceKey space tag sn sid st).2.2⟩
  · intro h hch hg1 hg2
    unfold handleSecurityEvent
    rw [h]
    dsimp only []
    have e1 : (tag == "grouparm") = false := by simp [hg1]
    have e2 : (tag == "groupdisarm") = false := by simp [hg2]
    have e3 : (space.securityState != ns) = true := by simp [hch]
    simp only [e1, e2, e3, Bool.or_false, Bool.not_false, Bool.and_self,
      if_false, if_true, Bool.false_or]
    constructor
    · rfl
    · simp [isStateProtected, dictGetD, dictGet_dictSet_self]
  · intro h heq
    unfold handleSecurityEvent
    rw [h]
    dsimp only []
    have e3 : (space.securityState != ns) = false := by simp [heq]
    simp only [e3, Bool.false_and, Bool.false_eq_true, if_false]
    split <;> rfl
  · intro hg
    unfold handleSecurityEvent
    rcases hl : dictGet T.eventTagToState tag with _ | ns'
    · rfl
    · dsimp only []
      have hg' : (tag == "grouparm" || tag == "groupdisarm") = true := by
        rcases hg with h | h <;> simp [h]
      simp only [hg', Bool.not_true, Bool.and_false, Bool.false_eq_true,
        if_false, if_true]

theorem c1_witness :
    ((handleSecurityEvent
        ⟨[("disarm", ⟨"disarmed"⟩)], [], [], [], [], [], [], [], [], []⟩
        (fun _ => false) 1000 "S1" ⟨"H1", "Home", ⟨"armed"⟩, []⟩ "disarm"
        (.str "A") ⟨[], [], 5, [], [], [], 0, 0⟩).1.lastStateUpdate
      = dictSet [] "H1" 1000 ∧
    isStateProtected
      (handleSecurityEvent
        ⟨[("disarm", ⟨"disarmed"⟩)], [], [], [], [], [], [], [], [], []⟩
        (fun _ => false) 1000 "S1" ⟨"H1", "Home", ⟨"armed"⟩, []⟩ "disarm"
        (.str "A") ⟨[], [], 5, [], [], [], 0, 0⟩).1.lastStateUpdate
      "H1" 1000 = true) ∧
    (handleSecurityEvent
        ⟨[("disarm", ⟨"disarmed"⟩)], [], [], [], [], [], [], [], [], []⟩
        (fun _ => false) 1000 "S1" ⟨"H1", "Home", ⟨"disarmed"⟩, []⟩ "disarm"
        (.str "A") ⟨[], [], 5, [], [], [], 0, 0⟩).1.lastStateUpdate = [] ∧
    (handleSecurityEvent
        ⟨[("grouparm", ⟨"armed"⟩)], [], [], [], [], [], [], [], [], []⟩
        (fun _ => false) 1000 "S1" ⟨"H1", "Home", ⟨"disarmed"⟩, []⟩
        "grouparm" (.str "A") ⟨[], [], 5, [], [], [], 0, 0⟩).1.lastStateUpdate
      = [] :=
  ⟨(c1_amended_protection_marking
      ⟨[("disarm", ⟨"disarmed"⟩)], [], [], [], [], [], [], [], [], []⟩
      (fun _ => false) 1000 "ISO" "S1" ⟨"H1", "Home", ⟨"armed"⟩, []⟩ "disarm"
      (.str "A") (.str "") "TRIGGERED" ⟨[], [], 5, [], [], [], 0, 0⟩
      ⟨"disarmed"⟩).1 (by rfl) (by decide) (by decide) (by decide),
    (c1_amended_protection_marking
      ⟨[("disarm", ⟨"disarmed"⟩)], [], [], [], [], [], [], [], [], []⟩
      (fun _ => false) 1000 "ISO" "S1" ⟨"H1", "Home", ⟨"disarmed"⟩, []⟩
      "disarm" (.str "A") (.str "") "TRIGGERED"
      ⟨[], [], 5, [], [], [], 0, 0⟩ ⟨"disarmed"⟩).2.1 (by rfl) (by rfl),
    (c1_amended_protection_marking
      ⟨[("grouparm", ⟨"armed"⟩)], [], [], [], [], [], [], [], [], []⟩
      (fun _ => false) 1000 "ISO" "S1" ⟨"H1", "Home", ⟨"disarmed"⟩, []⟩
      "grouparm" (.str "A") (.str "") "TRIGGERED"
      ⟨[], [], 5, [], [], [], 0, 0⟩ ⟨"armed"⟩).2.2.1 (.inl rfl)⟩

/-! ## Claim C2 — the deduplication window -/

/-- C2: once a delivery passes deduplication it records its own arrival
time under its `(sourceId, tag, transition)` key and is dispatched
(never suppressed, never treated as malformed); an identical delivery
less than the dedup window later is suppressed with the entire state —
including the recorded timestamp — unchanged; an identical delivery at
least the window later passes again and records its own time. -/
theorem c2_dedup_window (T : Tables)
    (pec : JValue → Except PyErr (Option EventCodeInfo))
    (pending : String → Bool) (nowIso : String) (st : HState) (p : JValue)
    (ne : NormEvent) (t1 t2 : Int)
    (h1 : normalizeEvent pec p = .ok (.go ne))
    (hfirst : ¬(t1 - dictGetD st.recentEvents (eventKey ne) 0
        < st.dedupWindow)) :
    (dictGet (handleEvent T pec pending t1 nowIso st p).1.recentEvents
        (eventKey ne) = some t1 ∧
      (handleEvent T pec pending t1 nowIso st p).2 ≠ .suppressed ∧
      (handleEvent T pec pending t1 nowIso st p).2 ≠ .malformed) ∧
    (t2 - t1 < st.dedupWindow →
      handleEvent T pec pending t2 nowIso
          (handleEvent T pec pending t1 nowIso st p).1 p
        = ((handleEvent T pec pending t1 nowIso st p).1, .suppressed)) ∧
    (¬(t2 - t1 < st.dedupWindow) →
      dictGet (handleEvent T pec pending t2 nowIso
          (handleEvent T pec pending t1 nowIso st p).1 p).1.recentEvents
          (eventKey ne) = some t2 ∧
      (handleEvent T pec pending t2 nowIso
          (handleEvent T pec pending t1 nowIso st p).1 p).2
        ≠ .suppressed) := by
  obtain ⟨ha1, ha2, ha3, ha4⟩ :=
    handleEvent_passed T pec pending t1 nowIso st p ne h1 hfirst
  have hlast : dictGetD
      (handleEvent T pec pending t1 nowIso st p).1.recentEvents
      (eventKey ne) 0 = t1 := by
    rw [dictGetD, ha1]
    rfl
  refine ⟨⟨ha1, ha3, ha4⟩, ?_, ?_⟩
  · intro hlt
    apply handleEvent_suppressed T pec pending t2 nowIso _ p ne h1
    rw [hlast, ha2]
    exact hlt
  · intro hge
    have hp := handleEvent_passed T pec pending t2 nowIso
      (handleEvent T pec pending t1 nowIso st p).1 p ne h1
      (by rw [hlast, ha2]; exact hge)
    exact ⟨hp.1, hp.2.2.1⟩

theorem c2_witness :
    (dictGet (handleEvent
        ⟨[], [("dooropened", ("door_opened", true))], [], [], [], [], [],
          [], [], []⟩
        (fun _ => .ok none) (fun _ => false) 1000 "ISO"
        ⟨[], [], 5,
          [("S1", ⟨"H1", "Home", ⟨"armed"⟩,
            [("D1", ⟨"D1", "Front Door", true, []⟩)]⟩)], [], [], 0, 0⟩
        (.obj [("eventTag", .str "DoorOpened"), ("hubId", .str "H1"),
          ("deviceId", .str "D1")])).1.recentEvents
        "D1:dooropened:TRIGGERED" = some 1000) ∧
    handleEvent
        ⟨[], [("dooropened", ("door_opened", true))], [], [], [], [], [],
          [], [], []⟩
        (fun _ => .ok none) (fun _ => false) 1001 "ISO"
        (handleEvent
          ⟨[], [("dooropened", ("door_opened", true))], [], [], [], [], [],
            [], [], []⟩
          (fun _ => .ok none) (fun _ => false) 1000 "ISO"
          ⟨[], [], 5,
            [("S1", ⟨"H1", "Home", ⟨"armed"⟩,
              [("D1", ⟨"D1", "Front Door", true, []⟩)]⟩)], [], [], 0, 0⟩
          (.obj [("eventTag", .str "DoorOpened"), ("hubId", .str "H1"),
            ("deviceId", .str "D1")])).1
        (.obj [("eventTag", .str "DoorOpened"), ("hubId", .str "H1"),
          ("deviceId", .str "D1")])
      = ((handleEvent
          ⟨[], [("dooropened", ("door_opened", true))], [], [], [], [], [],
            [], [], []⟩
          (fun _ => .ok none) (fun _ => false) 1000 "ISO"
          ⟨[], [], 5,
            [("S1", ⟨"H1", "Home", ⟨"armed"⟩,
              [("D1", ⟨"D1", "Front Door", true, []⟩)]⟩)], [], [], 0, 0⟩
          (.obj [("eventTag", .str "DoorOpened"), ("hubId", .str "H1"),
            ("deviceId", .str "D1")])).1, .suppressed) := by
  have h := c2_dedup_window
    ⟨[], [("dooropened", ("door_opened", true))], [], [], [], [], [],
      [], [], []⟩
    (fun _ => .ok none) (fun _ => false) "ISO"
    ⟨[], [], 5,
      [("S1", ⟨"H1", "Home", ⟨"armed"⟩,
        [("D1", ⟨"D1", "Front Door", true, []⟩)]⟩)], [], [], 0, 0⟩
    (.obj [("eventTag", .str "DoorOpened"), ("hubId", .str "H1"),
      ("deviceId", .str "D1")])
    ⟨"dooropened", .str "H1", .str "", .str "", .str "D1", .str "",
      "UNKNOWN", "TRIGGERED",
      [("eventTag", .str "DoorOpened"), ("hubId", .str "H1"),
        ("deviceId", .str "D1")]⟩
    1000 1001 (by rfl) (by decide)
  exact ⟨h.1.1, h.2.1 (by decide)⟩

/-! ## Claim C8 — malformed payloads are dropped, not fatal -/

/-- C8: a payload whose event record lacks an `eventTag` (or carries an
empty one) or lacks a `hubId` is dropped with the state completely
unchanged — either as the explicit malformed drop or, for a non-string
tag, as a logged (non-fatal) error — and processing goes no further. -/
theorem c8_malformed_drop (T : Tables)
    (pec : JValue → Except PyErr (Option EventCodeInfo))
    (pending : String → Bool) (now : Int) (nowIso : String) (st : HState)
    (p : JValue) (ef : List (String × JValue))
    (hobj : resolveEventObj p = .ok (.obj ef))
    (hmiss : dictGet ef "eventTag" = none ∨
      dictGet ef "eventTag" = some (.str "") ∨ dictGet ef "hubId" = none) :
    (handleEvent T pec pending now nowIso st p).1 = st ∧
    ((handleEvent T pec pending now nowIso st p).2 = .malformed ∨
      ∃ e, (handleEvent T pec pending now nowIso st p).2
        = .errorLogged e) := by
  unfold handleEvent handleEventBody normalizeEvent
  rw [hobj]
  dsimp only []
  rcases hmiss with h | h | h
  · rw [show dictGetD ef "eventTag" (.str "") = .str "" by
      simp [dictGetD, h]]
    dsimp only []
    rw [show (pyLower "" == "") = true from rfl]
    simp [tameOutcome]
  · rw [show dictGetD ef "eventTag" (.str "") = .str "" by
      simp [dictGetD, h]]
    dsimp only []
    rw [show (pyLower "" == "") = true from rfl]
    simp [tameOutcome]
  · rcases htag : dictGet ef "eventTag" with _ | v
    · rw [show dictGetD ef "eventTag" (.str "") = .str "" by
        simp [dictGetD, htag]]
      dsimp only []
      rw [show (pyLower "" == "") = true from rfl]
      simp [tameOutcome]
    · rw [show dictGetD ef "eventTag" (.str "") = v by
        simp [dictGetD, htag]]
      have hhub : jGetN ef "hubId" = .null := by
        simp [jGetN, dictGetD, h]
      cases v <;>
        simp [hhub, jTruthy, tameOutcome]

theorem c8_witness :
    (handleEvent ⟨[], [], [], [], [], [], [], [], [], []⟩
        (fun _ => .ok none) (fun _ => false) 1000 "ISO"
        ⟨[], [], 5, [], [], [], 0, 0⟩
        (.obj [("hubId", .str "H1")])).1
      = ⟨[], [], 5, [], [], [], 0, 0⟩ ∧
    ((handleEvent ⟨[], [], [], [], [], [], [], [], [], []⟩
        (fun _ => .ok none) (fun _ => false) 1000 "ISO"
        ⟨[], [], 5, [], [], [], 0, 0⟩
        (.obj [("hubId", .str "H1")])).2 = .malformed ∨
      ∃ e, (handleEvent ⟨[], [], [], [], [], [], [], [], [], []⟩
        (fun _ => .ok none) (fun _ => false) 1000 "ISO"
        ⟨[], [], 5, [], [], [], 0, 0⟩
        (.obj [("hubId", .str "H1")])).2 = .errorLogged e) :=
  c8_malformed_drop ⟨[], [], [], [], [], [], [], [], [], []⟩
    (fun _ => .ok none) (fun _ => false) 1000 "ISO"
    ⟨[], [], 5, [], [], [], 0, 0⟩ (.obj [("hubId", .str "H1")])
    [("hubId", .str "H1")] (by rfl) (.inl (by rfl))

theorem c9_witness :
    handleEvent ⟨[], [], [], [], [], [], [], [], [], []⟩ (fun _ => .ok none)
        (fun _ => false) 1000 "ISO" ⟨[], [], 5, [], [], [], 0, 0⟩
        (.obj [("eventTag", .num 5), ("hubId", .str "H1")])
      = (⟨[], [], 5, [], [], [], 0, 0⟩, .errorLogged .attrError) :=
  (c9_exception_isolation ⟨[], [], [], [], [], [], [], [], [], []⟩
    (fun _ => .ok none) (fun _ => false) 1000 "ISO"
    ⟨[], [], 5, [], [], [], 0, 0⟩
    (.obj [("eventTag", .num 5), ("hubId", .str "H1")]) []).2.1
    ⟨[], [], 5, [], [], [], 0, 0⟩ .attrError (by rfl)

end AjaxSSE
